import Mathlib

/-!
Verification of the Moment financial-transaction classifier
(machine-learning service, files moment-fastapi-app.py and ml-api.py).

The hybrid classification pipeline is embedded shallowly:

* Python dict literals become entry lists; lookup takes the last matching
  entry, because in a Python dict literal a later duplicate key overrides
  an earlier one.
* Confidences and model probabilities (Python floats) become rationals,
  built with mkRat so that all comparisons reduce in the kernel.
* The external stemmer is a parameter of type String -> Option String;
  none stands for the stemmer raising an exception on that token.
* The external neural model plus tokenizer is a parameter
  String -> List Rat mapping the context text to its probability vector;
  the label index of the model is a parameter Nat -> String.
* The response timestamp (a pydantic default factory) is a parameter that
  the response assembly attaches to every successful response.
-/

/-- Lookup in a Python dict literal given as its entry list: a later
duplicate key overrides an earlier one, so the lookup takes the last
matching entry. -/
def dictGet : List (String × String) → String → Option String
  | [], _ => none
  | (k, v) :: rest, key =>
    match dictGet rest key with
    | some v2 => some v2
    | none => if key = k then some v else none

/-- Per-character lowercasing, the embedding of Python str.lower for the
ASCII texts this service handles. -/
def lowerStr (s : String) : String := ⟨s.data.map Char.toLower⟩

/-- Embedding of the regex class \x5cw (ASCII scope): letters, digits, underscore. -/
def isWordChar (c : Char) : Bool := c.isAlphanum || c = '_'

/-- Helper for tokenizeWS: walk the characters, accumulating the current word. -/
def wsTokenizeAux : List Char → List Char → List String
  | [], acc => if acc.isEmpty then [] else [⟨acc.reverse⟩]
  | c :: cs, acc =>
    if c.isWhitespace then
      if acc.isEmpty then wsTokenizeAux cs []
      else ⟨acc.reverse⟩ :: wsTokenizeAux cs []
    else wsTokenizeAux cs (c :: acc)

/-- Whitespace tokenization: the embedding of Python str.split with no
arguments (split on whitespace runs, no empty tokens). -/
def tokenizeWS (s : String) : List String := wsTokenizeAux s.data []

/-- CONFIDENCE_THRESHOLD = 0.4 (moment-fastapi-app.py line 23). -/
def CONFIDENCE_THRESHOLD : ℚ := mkRat 4 10

/-- Rule confidence tier 0.98 (direct raw keyword match). -/
def rat98 : ℚ := mkRat 98 100

/-- Rule confidence tier 0.95 (keyword match on processed text). -/
def rat95 : ℚ := mkRat 95 100

/-- Rule confidence tier 0.90 (intent-set match); also the short-circuit bound. -/
def rat90 : ℚ := mkRat 90 100

/-- Fallback confidence 0.1. -/
def rat01 : ℚ := mkRat 1 10

/-- DEFAULT_CATEGORIES (moment-fastapi-app.py lines 26-29). -/
def DEFAULT_CATEGORIES : List (String × String) :=
  [("income", "Other"),
   ("expense", "Other")]

/-- CATEGORY_TYPES (moment-fastapi-app.py lines 32-77), as the literal entry
list; note the key "Other" occurs twice (income section, then expense
section), so dict lookup resolves it to "expense". -/
def CATEGORY_TYPES : List (String × String) := [
  ("Salary", "income"),
  ("Freelance", "income"),
  ("Investment", "income"),
  ("Gift", "income"),
  ("Refund", "income"),
  ("Bonus", "income"),
  ("Allowance", "income"),
  ("Holiday Bonus", "income"),
  ("Small Business", "income"),
  ("Rental", "income"),
  ("Dividend", "income"),
  ("Pension", "income"),
  ("Asset Sale", "income"),
  ("Inheritance", "income"),
  ("Other", "income"),
  ("Food & Dining", "expense"),
  ("Transportation", "expense"),
  ("Housing", "expense"),
  ("Utilities", "expense"),
  ("Internet & Phone", "expense"),
  ("Healthcare", "expense"),
  ("Entertainment", "expense"),
  ("Shopping", "expense"),
  ("Online Shopping", "expense"),
  ("Travel", "expense"),
  ("Education", "expense"),
  ("Children Education", "expense"),
  ("Debt Payment", "expense"),
  ("Charitable Giving", "expense"),
  ("Family Support", "expense"),
  ("Tax", "expense"),
  ("Insurance", "expense"),
  ("Subscriptions", "expense"),
  ("Personal Care", "expense"),
  ("Vehicle Maintenance", "expense"),
  ("Home Furnishing", "expense"),
  ("Clothing", "expense"),
  ("Electronics", "expense"),
  ("Hobbies", "expense"),
  ("Social Events", "expense"),
  ("Other", "expense")
]

/-- Category-name to type lookup: CATEGORY_TYPES.get(category). -/
def catType (category : String) : Option String := dictGet CATEGORY_TYPES category

/-- KEYWORD_MAPPINGS (moment-fastapi-app.py lines 80-524), as the literal
entry list in source order, duplicate keys included; dict lookup resolves a
duplicate to its last entry. -/
def KEYWORD_MAPPINGS : List (String × String) := [
  ("baju", "Clothing"),
  ("pakaian", "Clothing"),
  ("beli", "Shopping"),
  ("belanja", "Shopping"),
  ("tokopedia", "Online Shopping"),
  ("shopee", "Online Shopping"),
  ("lazada", "Online Shopping"),
  ("bukalapak", "Online Shopping"),
  ("blibli", "Online Shopping"),
  ("zalora", "Online Shopping"),
  ("sepatu", "Clothing"),
  ("tas", "Clothing"),
  ("celana", "Clothing"),
  ("kemeja", "Clothing"),
  ("jaket", "Clothing"),
  ("aksesoris", "Clothing"),
  ("elektronik", "Electronics"),
  ("gadget", "Electronics"),
  ("komputer", "Electronics"),
  ("hp", "Electronics"),
  ("smartphone", "Electronics"),
  ("clothes", "Clothing"),
  ("outfit", "Clothing"),
  ("dress", "Clothing"),
  ("shoes", "Clothing"),
  ("bag", "Clothing"),
  ("pants", "Clothing"),
  ("shirt", "Clothing"),
  ("jacket", "Clothing"),
  ("accessories", "Clothing"),
  ("electronics", "Electronics"),
  ("computer", "Electronics"),
  ("phone", "Electronics"),
  ("mall", "Shopping"),
  ("supermarket", "Shopping"),
  ("pasar", "Shopping"),
  ("toko", "Shopping"),
  ("warung", "Food & Dining"),
  ("fashion", "Clothing"),
  ("lebaran", "Shopping"),
  ("natal", "Shopping"),
  ("diskon", "Shopping"),
  ("sale", "Shopping"),
  ("promo", "Shopping"),
  ("kasir", "Shopping"),
  ("checkout", "Online Shopping"),
  ("makan", "Food & Dining"),
  ("makanan", "Food & Dining"),
  ("minum", "Food & Dining"),
  ("minuman", "Food & Dining"),
  ("jajan", "Food & Dining"),
  ("cemilan", "Food & Dining"),
  ("snack", "Food & Dining"),
  ("gorengan", "Food & Dining"),
  ("roti", "Food & Dining"),
  ("kue", "Food & Dining"),
  ("bakso", "Food & Dining"),
  ("mie", "Food & Dining"),
  ("nasi", "Food & Dining"),
  ("ayam", "Food & Dining"),
  ("sapi", "Food & Dining"),
  ("ikan", "Food & Dining"),
  ("sayur", "Food & Dining"),
  ("buah", "Food & Dining"),
  ("dapur", "Food & Dining"),
  ("masak", "Food & Dining"),
  ("delivery", "Food & Dining"),
  ("pesan", "Food & Dining"),
  ("order", "Food & Dining"),
  ("restoran", "Food & Dining"),
  ("restaurant", "Food & Dining"),
  ("rumah makan", "Food & Dining"),
  ("depot", "Food & Dining"),
  ("kantin", "Food & Dining"),
  ("cafe", "Food & Dining"),
  ("kopi", "Food & Dining"),
  ("coffee", "Food & Dining"),
  ("teh", "Food & Dining"),
  ("susu", "Food & Dining"),
  ("jus", "Food & Dining"),
  ("gofood", "Food & Dining"),
  ("grabfood", "Food & Dining"),
  ("shopeefood", "Food & Dining"),
  ("food", "Food & Dining"),
  ("drink", "Food & Dining"),
  ("grocery", "Food & Dining"),
  ("dinner", "Food & Dining"),
  ("lunch", "Food & Dining"),
  ("breakfast", "Food & Dining"),
  ("brunch", "Food & Dining"),
  ("dine", "Food & Dining"),
  ("bensin", "Transportation"),
  ("pertalite", "Transportation"),
  ("pertamax", "Transportation"),
  ("solar", "Transportation"),
  ("bbm", "Transportation"),
  ("gas", "Transportation"),
  ("isi", "Transportation"),
  ("top up", "Transportation"),
  ("e-money", "Transportation"),
  ("flazz", "Transportation"),
  ("brizzi", "Transportation"),
  ("toll", "Transportation"),
  ("tol", "Transportation"),
  ("parkir", "Transportation"),
  ("parking", "Transportation"),
  ("grab", "Transportation"),
  ("gojek", "Transportation"),
  ("gocar", "Transportation"),
  ("goride", "Transportation"),
  ("maxim", "Transportation"),
  ("indriver", "Transportation"),
  ("ojek", "Transportation"),
  ("online", "Transportation"),
  ("taksi", "Transportation"),
  ("taxi", "Transportation"),
  ("angkot", "Transportation"),
  ("angkutan", "Transportation"),
  ("umum", "Transportation"),
  ("bus", "Transportation"),
  ("bis", "Transportation"),
  ("transjakarta", "Transportation"),
  ("trans", "Transportation"),
  ("mrt", "Transportation"),
  ("lrt", "Transportation"),
  ("krl", "Transportation"),
  ("commuter", "Transportation"),
  ("kereta", "Transportation"),
  ("train", "Transportation"),
  ("stasiun", "Transportation"),
  ("bandara", "Travel"),
  ("airport", "Travel"),
  ("pesawat", "Travel"),
  ("plane", "Travel"),
  ("flight", "Travel"),
  ("terbang", "Travel"),
  ("kapal", "Travel"),
  ("laut", "Travel"),
  ("ferry", "Travel"),
  ("pelabuhan", "Travel"),
  ("terminal", "Transportation"),
  ("halte", "Transportation"),
  ("rental", "Transportation"),
  ("sewa", "Transportation"),
  ("mobil", "Transportation"),
  ("motor", "Transportation"),
  ("kendaraan", "Transportation"),
  ("transport", "Transportation"),
  ("transportasi", "Transportation"),
  ("perjalanan", "Travel"),
  ("tiket", "Travel"),
  ("ticket", "Travel"),
  ("booking", "Travel"),
  ("hotel", "Travel"),
  ("penginapan", "Travel"),
  ("losmen", "Travel"),
  ("hostel", "Travel"),
  ("villa", "Travel"),
  ("airbnb", "Travel"),
  ("travel", "Travel"),
  ("listrik", "Utilities"),
  ("electricity", "Utilities"),
  ("token", "Utilities"),
  ("pln", "Utilities"),
  ("air", "Utilities"),
  ("pdam", "Utilities"),
  ("water", "Utilities"),
  ("gas", "Utilities"),
  ("pgn", "Utilities"),
  ("internet", "Internet & Phone"),
  ("wifi", "Internet & Phone"),
  ("indihome", "Internet & Phone"),
  ("biznet", "Internet & Phone"),
  ("myrepublic", "Internet & Phone"),
  ("first media", "Internet & Phone"),
  ("provider", "Internet & Phone"),
  ("data", "Internet & Phone"),
  ("kuota", "Internet & Phone"),
  ("paket", "Internet & Phone"),
  ("pulsa", "Internet & Phone"),
  ("telepon", "Internet & Phone"),
  ("telpon", "Internet & Phone"),
  ("seluler", "Internet & Phone"),
  ("pascabayar", "Internet & Phone"),
  ("prabayar", "Internet & Phone"),
  ("telkomsel", "Internet & Phone"),
  ("xl", "Internet & Phone"),
  ("indosat", "Internet & Phone"),
  ("smartfren", "Internet & Phone"),
  ("three", "Internet & Phone"),
  ("axis", "Internet & Phone"),
  ("phone", "Internet & Phone"),
  ("mobile", "Internet & Phone"),
  ("bill", "Utilities"),
  ("tagihan", "Utilities"),
  ("bayar", "Debt Payment"),
  ("payment", "Debt Payment"),
  ("cicilan", "Debt Payment"),
  ("angsuran", "Debt Payment"),
  ("kredit", "Debt Payment"),
  ("pinjaman", "Debt Payment"),
  ("loan", "Debt Payment"),
  ("hutang", "Debt Payment"),
  ("debt", "Debt Payment"),
  ("kartu kredit", "Debt Payment"),
  ("credit card", "Debt Payment"),
  ("pajak", "Tax"),
  ("tax", "Tax"),
  ("ppn", "Tax"),
  ("pph", "Tax"),
  ("samsat", "Tax"),
  ("asuransi", "Insurance"),
  ("insurance", "Insurance"),
  ("premi", "Insurance"),
  ("bpjs", "Insurance"),
  ("jiwasraya", "Insurance"),
  ("prudential", "Insurance"),
  ("allianz", "Insurance"),
  ("langganan", "Subscriptions"),
  ("subscription", "Subscriptions"),
  ("member", "Subscriptions"),
  ("membership", "Subscriptions"),
  ("netflix", "Subscriptions"),
  ("spotify", "Subscriptions"),
  ("youtube", "Subscriptions"),
  ("disney", "Subscriptions"),
  ("hbo", "Subscriptions"),
  ("prime", "Subscriptions"),
  ("gym", "Subscriptions"),
  ("fitnes", "Subscriptions"),
  ("sewa", "Housing"),
  ("kontrakan", "Housing"),
  ("kos", "Housing"),
  ("kost", "Housing"),
  ("apartemen", "Housing"),
  ("rumah", "Housing"),
  ("kpr", "Housing"),
  ("mortgage", "Housing"),
  ("ipl", "Housing"),
  ("maintenance", "Housing"),
  ("kebersihan", "Housing"),
  ("keamanan", "Housing"),
  ("sampah", "Housing"),
  ("obat", "Healthcare"),
  ("apotek", "Healthcare"),
  ("apotik", "Healthcare"),
  ("dokter", "Healthcare"),
  ("doctor", "Healthcare"),
  ("klinik", "Healthcare"),
  ("clinic", "Healthcare"),
  ("rumah sakit", "Healthcare"),
  ("hospital", "Healthcare"),
  ("puskesmas", "Healthcare"),
  ("periksa", "Healthcare"),
  ("sakit", "Healthcare"),
  ("sehat", "Healthcare"),
  ("health", "Healthcare"),
  ("medical", "Healthcare"),
  ("kacamata", "Healthcare"),
  ("optik", "Healthcare"),
  ("sekolah", "Education"),
  ("school", "Education"),
  ("kuliah", "Education"),
  ("kampus", "Education"),
  ("universitas", "Education"),
  ("university", "Education"),
  ("kursus", "Education"),
  ("course", "Education"),
  ("les", "Education"),
  ("bimbel", "Education"),
  ("tuition", "Education"),
  ("spp", "Education"),
  ("uang pangkal", "Education"),
  ("buku", "Education"),
  ("book", "Education"),
  ("alat tulis", "Education"),
  ("stationery", "Education"),
  ("wisuda", "Education"),
  ("anak", "Children Education"),
  ("children", "Children Education"),
  ("salon", "Personal Care"),
  ("barber", "Personal Care"),
  ("pangkas rambut", "Personal Care"),
  ("cukur", "Personal Care"),
  ("spa", "Personal Care"),
  ("pijat", "Personal Care"),
  ("massage", "Personal Care"),
  ("kosmetik", "Personal Care"),
  ("cosmetics", "Personal Care"),
  ("makeup", "Personal Care"),
  ("skincare", "Personal Care"),
  ("parfum", "Personal Care"),
  ("sabun", "Personal Care"),
  ("shampo", "Personal Care"),
  ("laundry", "Personal Care"),
  ("bioskop", "Entertainment"),
  ("cinema", "Entertainment"),
  ("film", "Entertainment"),
  ("movie", "Entertainment"),
  ("nonton", "Entertainment"),
  ("tiket", "Entertainment"),
  ("konser", "Entertainment"),
  ("concert", "Entertainment"),
  ("musik", "Entertainment"),
  ("music", "Entertainment"),
  ("game", "Entertainment"),
  ("voucher", "Entertainment"),
  ("hiburan", "Entertainment"),
  ("rekreasi", "Entertainment"),
  ("tamasya", "Entertainment"),
  ("main", "Entertainment"),
  ("play", "Entertainment"),
  ("karaoke", "Entertainment"),
  ("museum", "Entertainment"),
  ("galeri", "Entertainment"),
  ("pertunjukan", "Entertainment"),
  ("teater", "Entertainment"),
  ("bengkel", "Vehicle Maintenance"),
  ("servis", "Vehicle Maintenance"),
  ("service", "Vehicle Maintenance"),
  ("montir", "Vehicle Maintenance"),
  ("oli", "Vehicle Maintenance"),
  ("ban", "Vehicle Maintenance"),
  ("spare part", "Vehicle Maintenance"),
  ("aksesoris mobil", "Vehicle Maintenance"),
  ("cuci mobil", "Vehicle Maintenance"),
  ("perbaikan", "Housing"),
  ("renovasi", "Housing"),
  ("tukang", "Housing"),
  ("furnitur", "Home Furnishing"),
  ("furniture", "Home Furnishing"),
  ("perabot", "Home Furnishing"),
  ("alat rumah tangga", "Home Furnishing"),
  ("dekorasi", "Home Furnishing"),
  ("kado", "Gift"),
  ("hadiah", "Gift"),
  ("gift", "Gift"),
  ("sumbangan", "Charitable Giving"),
  ("donasi", "Charitable Giving"),
  ("zakat", "Charitable Giving"),
  ("infaq", "Charitable Giving"),
  ("sedekah", "Charitable Giving"),
  ("amal", "Charitable Giving"),
  ("charity", "Charitable Giving"),
  ("keluarga", "Family Support"),
  ("family", "Family Support"),
  ("orang tua", "Family Support"),
  ("anak", "Family Support"),
  ("saudara", "Family Support"),
  ("teman", "Social Events"),
  ("traktir", "Social Events"),
  ("patungan", "Social Events"),
  ("arisan", "Social Events"),
  ("nikah", "Social Events"),
  ("kondangan", "Social Events"),
  ("ulang tahun", "Social Events"),
  ("pesta", "Social Events"),
  ("kumpul", "Social Events"),
  ("liburan", "Travel"),
  ("hobi", "Hobbies"),
  ("kamera", "Hobbies"),
  ("buku", "Hobbies"),
  ("tanaman", "Hobbies"),
  ("hewan peliharaan", "Hobbies"),
  ("pet", "Hobbies"),
  ("alat pancing", "Hobbies"),
  ("olahraga", "Hobbies"),
  ("sport", "Hobbies"),
  ("musik", "Hobbies"),
  ("gaji", "Salary"),
  ("salary", "Salary"),
  ("upah", "Salary"),
  ("pendapatan", "Salary"),
  ("penghasilan", "Salary"),
  ("income", "Salary"),
  ("bonus", "Bonus"),
  ("thr", "Holiday Bonus"),
  ("tunjangan", "Allowance"),
  ("allowance", "Allowance"),
  ("insentif", "Bonus"),
  ("komisi", "Freelance"),
  ("fee", "Freelance"),
  ("honor", "Freelance"),
  ("freelance", "Freelance"),
  ("proyek", "Freelance"),
  ("project", "Freelance"),
  ("usaha", "Small Business"),
  ("bisnis", "Small Business"),
  ("toko", "Small Business"),
  ("jualan", "Small Business"),
  ("laba", "Small Business"),
  ("profit", "Small Business"),
  ("omset", "Small Business"),
  ("revenue", "Small Business"),
  ("sewa", "Rental"),
  ("kontrakan", "Rental"),
  ("kos", "Rental"),
  ("investasi", "Investment"),
  ("investment", "Investment"),
  ("saham", "Investment"),
  ("reksadana", "Investment"),
  ("obligasi", "Investment"),
  ("dividen", "Dividend"),
  ("dividend", "Dividend"),
  ("bunga", "Investment"),
  ("interest", "Investment"),
  ("modal", "Investment"),
  ("capital gain", "Investment"),
  ("jual aset", "Asset Sale"),
  ("asset sale", "Asset Sale"),
  ("warisan", "Inheritance"),
  ("inheritance", "Inheritance"),
  ("pensiun", "Pension"),
  ("pension", "Pension"),
  ("hadiah", "Gift"),
  ("gift", "Gift"),
  ("angpao", "Gift"),
  ("transfer", "Other"),
  ("tarik tunai", "Other"),
  ("setor tunai", "Other"),
  ("refund", "Refund"),
  ("reimburse", "Refund"),
  ("klaim", "Refund"),
  ("claim", "Refund")
]

/-- Keyword to category lookup: KEYWORD_MAPPINGS[word]. -/
def kwLookup (word : String) : Option String := dictGet KEYWORD_MAPPINGS word

/-- FINANCIAL_TERMS (moment-fastapi-app.py lines 541-550). -/
def FINANCIAL_TERMS : List (String × String) := [
  ("gopay", "gopay"),
  ("ovo", "ovo"),
  ("dana", "dana"),
  ("bca", "bca"),
  ("kpr", "kpr"),
  ("pln", "pln"),
  ("bibit", "investasi"),
  ("membership", "member"),
  ("payment", "payment"),
  ("transfer", "transfer"),
  ("salary", "salary"),
  ("bill", "bill"),
  ("shopping", "shopping"),
  ("food", "food")
]

/-- Financial-term lookup: FINANCIAL_TERMS[token]. -/
def finLookup (token : String) : Option String := dictGet FINANCIAL_TERMS token

/-- INCOME_CATEGORIES (ml-api.py lines 32-35). -/
def INCOME_CATEGORIES : List String :=
  ["Salary", "Freelance", "Investment", "Gift", "Refund", "Bonus", "Allowance",
   "Small Business", "Rental", "Dividend", "Pension", "Asset Sale", "Other"]

/-- EXPENSE_CATEGORIES (ml-api.py lines 37-42). -/
def EXPENSE_CATEGORIES : List String :=
  ["Food & Dining", "Transportation", "Housing", "Utilities", "Internet & Phone",
   "Healthcare", "Entertainment", "Shopping", "Travel", "Education", "Debt Payment",
   "Charitable Giving", "Family Support", "Tax", "Insurance", "Subscriptions",
   "Personal Care", "Vehicle Maintenance", "Clothing", "Electronics", "Other"]

/-- Drop every character that is neither a word character nor whitespace:
the punctuation-removing re.sub in preprocess_text. -/
def stripNonWord (s : String) : String :=
  ⟨s.data.filter (fun c => isWordChar c || c.isWhitespace)⟩

/-- Per-token step of preprocess_text: known financial terms are substituted
verbatim; otherwise the external stemmer runs, and if it raises (modeled by
none) the original token is kept. -/
def normalizeToken (stem : String → Option String) (t : String) : String :=
  match finLookup t with
  | some r => r
  | none =>
    match stem t with
    | some st => st
    | none => t

/-- The token list preprocess_text operates on: lowercase, strip punctuation,
split on whitespace (whitespace collapsing and trimming are absorbed by the
split). -/
def cleanTokens (text : String) : List String :=
  tokenizeWS (stripNonWord (lowerStr text))

/-- preprocess_text (moment-fastapi-app.py lines 579-606). -/
def preprocess_text (stem : String → Option String) (text : String) : String :=
  String.intercalate " " ((cleanTokens text).map (normalizeToken stem))

/-- The keyword loop of apply_rule_based_classification steps 1 and 2: first
token that is a key of KEYWORD_MAPPINGS whose mapped category has the
requested type; a key with a mismatched type is skipped and the loop goes on. -/
def findKeywordMatch (trans_type : String) : List String → Option (String × String)
  | [] => none
  | w :: ws =>
    match kwLookup w with
    | some category =>
      if catType category = some trans_type then some (w, category)
      else findKeywordMatch trans_type ws
    | none => findKeywordMatch trans_type ws

/-- Shopping-intent keyword set (source line 651); the Python set literal is
kept in literal order. -/
def shopping_intent_keywords : List String :=
  ["beli", "belanja", "bayar", "kasir", "order", "pesan", "purchase"]

/-- Food-intent keyword set (source line 660). -/
def food_intent_keywords : List String :=
  ["makan", "minum", "jajan", "masak", "dapur", "dine", "delivery"]

/-- Transport-intent keyword set (source line 666). -/
def transport_intent_keywords : List String :=
  ["transport", "transportasi", "kendaraan", "perjalanan"]

/-- Travel-intent keyword set (source line 673). -/
def travel_intent_keywords : List String :=
  ["travel", "liburan", "wisata", "tur", "tour", "trip", "holiday", "vacation", "jalan"]

/-- apply_rule_based_classification (moment-fastapi-app.py lines 608-679).
The list comprehensions over the Python intent sets are modeled as filters
in literal order, and set membership as list membership. -/
def apply_rule_based_classification (stem : String → Option String)
    (text trans_type : String) : Option String × ℚ × String :=
  let original_words := tokenizeWS (lowerStr text)
  let processed_words := tokenizeWS (preprocess_text stem text)
  match findKeywordMatch trans_type original_words with
  | some (word, category) =>
    (some category, rat98,
      "Category \x27" ++ category ++ "\x27 chosen based on keyword \x27" ++ word ++ "\x27")
  | none =>
    match findKeywordMatch trans_type processed_words with
    | some (word, category) =>
      (some category, rat95,
        "Category \x27" ++ category ++ "\x27 chosen based on processed keyword \x27" ++
          word ++ "\x27 (from \x27" ++ text ++ "\x27)")
    | none =>
      if trans_type = "expense" then
        let matched_shopping := shopping_intent_keywords.filter (fun w => processed_words.contains w)
        if !matched_shopping.isEmpty then
          (some "Shopping", rat90,
            "Category \x27Shopping\x27 chosen based on general purchase terms: " ++
              String.intercalate ", " matched_shopping)
        else
          let matched_food := food_intent_keywords.filter (fun w => processed_words.contains w)
          if !matched_food.isEmpty then
            (some "Food & Dining", rat90,
              "Category \x27Food & Dining\x27 chosen based on general food terms: " ++
                String.intercalate ", " matched_food)
          else
            let matched_transport := transport_intent_keywords.filter (fun w => processed_words.contains w)
            if !matched_transport.isEmpty then
              (some "Transportation", rat90,
                "Category \x27Transportation\x27 chosen based on general transport terms: " ++
                  String.intercalate ", " matched_transport)
            else
              let matched_travel := travel_intent_keywords.filter (fun w => processed_words.contains w)
              if !matched_travel.isEmpty then
                (some "Travel", rat90,
                  "Category \x27Travel\x27 chosen based on general travel terms: " ++
                    String.intercalate ", " matched_travel)
              else (none, 0, "")
      else (none, 0, "")

/-- Insertion step of the stable descending sort. An element already in the
list stays ahead of the inserted one only when its probability is strictly
larger, so earlier elements win ties, as in Python's stable sorted. -/
def insertDesc (p : String × ℚ) : List (String × ℚ) → List (String × ℚ)
  | [] => [p]
  | q :: qs => if p.2 < q.2 then q :: insertDesc p qs else p :: q :: qs

/-- Stable descending sort by probability: extensional embedding of
Python sorted with the probability as key and reverse set (also stable). -/
def sortDesc : List (String × ℚ) → List (String × ℚ)
  | [] => []
  | p :: ps => insertDesc p (sortDesc ps)

/-- filter_categories_by_type (moment-fastapi-app.py lines 681-692). -/
def filter_categories_by_type (id2label : ℕ → String) (probabilities : List ℚ)
    (transaction_type : String) : List (String × ℚ) :=
  sortDesc ((probabilities.enum).filterMap (fun ip =>
    let category := id2label ip.1
    if catType category = some transaction_type then some (category, ip.2) else none))

/-- Does the first character list lead the second (block-at-the-start test)? -/
def leadsChars : List Char → List Char → Bool
  | [], _ => true
  | _ :: _, [] => false
  | a :: as, b :: bs => a = b && leadsChars as bs

/-- Does the character list contain the first list as a contiguous block? -/
def hasSubChars (needle : List Char) : List Char → Bool
  | [] => needle.isEmpty
  | c :: cs => leadsChars needle (c :: cs) || hasSubChars needle cs

/-- Python substring containment: sub in s. -/
def strContains (s sub : String) : Bool := hasSubChars sub.data s.data

/-- Two-decimal rendering of a rational confidence: the embedding of the
format specifier .2f (decimal rounding abstraction of float formatting;
no claim depends on the digits). -/
def fmt2 (q : ℚ) : String :=
  let cents : Int := (q.num * 200 + q.den) / (2 * q.den)
  toString (cents / 100) ++ "." ++
    (if (cents % 100).toNat < 10 then "0" else "") ++ toString (cents % 100).toNat

/-- generate_explanation (moment-fastapi-app.py lines 694-708). -/
def generate_explanation (category processed_text trans_type : String) : String :=
  if strContains processed_text "belanja" || strContains processed_text "shopping" ||
      strContains processed_text "beli" then
    "Category \x27" ++ category ++ "\x27 was chosen because the description contains shopping-related terms"
  else if strContains processed_text "makan" || strContains processed_text "food" then
    "Category \x27" ++ category ++ "\x27 was chosen because the description contains food-related terms"
  else if strContains processed_text "transport" || strContains processed_text "gojek" ||
      strContains processed_text "grab" then
    "Category \x27" ++ category ++ "\x27 was chosen because the description contains transportation-related terms"
  else if strContains processed_text "gaji" || strContains processed_text "salary" then
    "Category \x27" ++ category ++ "\x27 was chosen because the description contains income-related terms"
  else if (dictGet DEFAULT_CATEGORIES trans_type).any (fun d => category = d) then
    "Default category \x27" ++ category ++ "\x27 was chosen because no high-confidence prediction was available"
  else
    "Category \x27" ++ category ++ "\x27 was chosen based on the transaction description and type"

/-- The provenance of the final verdict, the spec's source field: which of the
five return sites of classify_transaction produced the response. -/
inductive VerdictSource where
  | rule
  | model
  | defaultSrc
deriving DecidableEq

/-- The data dict of a successful classification response. -/
structure PredictionData where
  category : String
  confidence : ℚ
  processed_text : String
  explanation : String
  suggestions : List (String × ℚ)
deriving DecidableEq

/-- A successful classification response: message, data, provenance and the
timestamp stamped by the response model's default factory. -/
structure PredictionResponse where
  message : String
  data : PredictionData
  source : VerdictSource
  timestamp : ℕ
deriving DecidableEq

/-- classify_transaction before timestamping (moment-fastapi-app.py lines
720-871): the five return sites produce a message, a data record and the
provenance; a bad transaction type raises a validation error. -/
def classify_transaction_core (stem : String → Option String)
    (modelFn : String → List ℚ) (id2label : ℕ → String)
    (text trans_type : String) :
    Except String (String × PredictionData × VerdictSource) :=
  if trans_type = "income" ∨ trans_type = "expense" then
    let rv := apply_rule_based_classification stem text trans_type
    let rule_category := rv.1
    let rule_confidence := rv.2.1
    let rule_explanation := rv.2.2
    if rule_category.isSome ∧ rat90 ≤ rule_confidence then
      .ok ("Transaction classified using rule-based matching",
        { category := rule_category.getD "",
          confidence := rule_confidence,
          processed_text := preprocess_text stem text,
          explanation := rule_explanation,
          suggestions := [] }, .rule)
    else
      let processed_text_ml := preprocess_text stem text
      let context_text := processed_text_ml ++ " [type:" ++ trans_type ++ "]"
      let proba := modelFn context_text
      let filtered_ml_categories := filter_categories_by_type id2label proba trans_type
      match filtered_ml_categories with
      | [] =>
        match rule_category with
        | some rc =>
          .ok ("Using rule-based category as ML fallback",
            { category := rc,
              confidence := if 0 < rule_confidence then rule_confidence else rat01,
              processed_text := processed_text_ml,
              explanation := rule_explanation ++ " (ML prediction failed for type \x27" ++
                trans_type ++ "\x27)",
              suggestions := [] }, .rule)
        | none =>
          let default_category := (dictGet DEFAULT_CATEGORIES trans_type).getD ""
          .ok ("Using default category as no ML results matched type",
            { category := default_category,
              confidence := rat01,
              processed_text := processed_text_ml,
              explanation := "Default category \x27" ++ default_category ++
                "\x27 chosen because no ML predictions matched transaction type: " ++ trans_type,
              suggestions := [] }, .defaultSrc)
      | best :: rest =>
        let best_ml_category := best.1
        let best_ml_confidence := best.2
        let final_category := best_ml_category
        let final_confidence :=
          match rule_category with
          | some rc =>
            if rc = best_ml_category then max best_ml_confidence rule_confidence
            else best_ml_confidence
          | none => best_ml_confidence
        let final_explanation :=
          match rule_category with
          | some rc =>
            if rc = best_ml_category then rule_explanation
            else generate_explanation best_ml_category processed_text_ml trans_type
          | none => generate_explanation best_ml_category processed_text_ml trans_type
        if final_confidence < CONFIDENCE_THRESHOLD then
          let default_category := (dictGet DEFAULT_CATEGORIES trans_type).getD ""
          let base_suggestions := (best :: rest).take 3
          let ml_suggestions :=
            match rule_category with
            | some rc =>
              if rc ≠ final_category ∧ rc ≠ default_category ∧
                  ¬ (base_suggestions.any (fun s => s.1 = rc)) then
                (rc, rule_confidence) :: base_suggestions
              else base_suggestions
            | none => base_suggestions
          .ok ("Low confidence prediction, using default category",
            { category := default_category,
              confidence := final_confidence,
              processed_text := processed_text_ml,
              explanation := "Default category \x27" ++ default_category ++
                "\x27 chosen because confidence (" ++ fmt2 final_confidence ++
                ") was below threshold (0.4). ML suggested \x27" ++ final_category ++
                "\x27. " ++
                (match rule_category with
                 | some rc => if rc ≠ final_category then rule_explanation else ""
                 | none => ""),
              suggestions := ml_suggestions.take 3 }, .defaultSrc)
        else
          let next_suggestions := rest.take 3
          let suggestions :=
            match rule_category with
            | some rc =>
              if rc ≠ final_category ∧ ¬ (next_suggestions.any (fun s => s.1 = rc)) then
                (rc, rule_confidence) :: next_suggestions
              else next_suggestions
            | none => next_suggestions
          .ok ("Transaction successfully classified",
            { category := final_category,
              confidence := final_confidence,
              processed_text := processed_text_ml,
              explanation := final_explanation,
              suggestions := suggestions.take 3 }, .model)
  else
    .error ("Invalid transaction type: " ++ trans_type ++
      ". Must be \x27income\x27 or \x27expense\x27")

/-- classify_transaction, the spec's decide operation: the core decision with
the response timestamp attached at response construction. -/
def classify_transaction (stem : String → Option String)
    (modelFn : String → List ℚ) (id2label : ℕ → String)
    (text trans_type : String) (now : ℕ) : Except String PredictionResponse :=
  match classify_transaction_core stem modelFn id2label text trans_type with
  | .ok msd => .ok { message := msd.1, data := msd.2.1, source := msd.2.2, timestamp := now }
  | .error e => .error e

/-- The spec's ClassificationResult view of a response: category, confidence,
explanation, suggestions and source (the timestamp is presentation only). -/
def resultView (r : Except String PredictionResponse) :
    Option (String × ℚ × String × List (String × ℚ) × VerdictSource) :=
  match r with
  | .ok resp =>
    some (resp.data.category, resp.data.confidence, resp.data.explanation,
      resp.data.suggestions, resp.source)
  | .error _ => none

set_option maxRecDepth 100000

deriving instance DecidableEq for Except

/-- The categories the classifier can name: every value of the keyword rule
table together with the model label sets of ml-api.py. -/
def usedCategoryNames : List String :=
  KEYWORD_MAPPINGS.map Prod.snd ++ INCOME_CATEGORIES ++ EXPENSE_CATEGORIES

/-- Modelled from the spec (section 4.2 steps 1 and 2): the keyword pass over a
token list, returning the first token in order that is a key of the Keyword
Rule Table and whose mapped category's type equals the requested type. -/
def specKeywordHit (requested_type : String) (tokens : List String) :
    Option (String × String) :=
  tokens.findSome? (fun w =>
    match kwLookup w with
    | some c => if catType c = some requested_type then some (w, c) else none
    | none => none)

/-- Modelled from the spec (section 4.2 step 3): the four fixed intent keyword
sets with their categories and explanation labels, in the spec's fixed
priority order shopping, food, transport, travel. -/
def intentTable : List (List String × String × String) :=
  [(shopping_intent_keywords, "Shopping", "general purchase terms"),
   (food_intent_keywords, "Food & Dining", "general food terms"),
   (transport_intent_keywords, "Transportation", "general transport terms"),
   (travel_intent_keywords, "Travel", "general travel terms")]

/-- Modelled from the spec (section 4.2): the Rule Classifier as a strictly
ordered, first-match-wins three-step algorithm: raw lowercased tokens at
0.98, then normalized tokens at 0.95, then for expense requests the first
overlapping intent set at 0.90, else no match at 0.0 with empty explanation.
The explanation templates are taken from the source, since the spec fixes
only which items they must mention. -/
def classify_by_rule_spec (stem : String → Option String)
    (text requested_type : String) : Option String × ℚ × String :=
  let raw := tokenizeWS (lowerStr text)
  let norm := tokenizeWS (preprocess_text stem text)
  match specKeywordHit requested_type raw with
  | some (w, c) =>
    (some c, rat98,
      "Category \x27" ++ c ++ "\x27 chosen based on keyword \x27" ++ w ++ "\x27")
  | none =>
    match specKeywordHit requested_type norm with
    | some (w, c) =>
      (some c, rat95,
        "Category \x27" ++ c ++ "\x27 chosen based on processed keyword \x27" ++
          w ++ "\x27 (from \x27" ++ text ++ "\x27)")
    | none =>
      if requested_type = "expense" then
        match intentTable.findSome? (fun e =>
          let matched := e.1.filter (fun w => norm.contains w)
          if matched.isEmpty then none else some (e.2.1, e.2.2, matched)) with
        | some (cat, label, matched) =>
          (some cat, rat90,
            "Category \x27" ++ cat ++ "\x27 chosen based on " ++ label ++ ": " ++
              String.intercalate ", " matched)
        | none => (none, 0, "")
      else (none, 0, "")


theorem findKeywordMatch_nil (tt : String) : findKeywordMatch tt [] = none := rfl

theorem findKeywordMatch_cons (tt w : String) (ws : List String) :
    findKeywordMatch tt (w :: ws) =
      match kwLookup w with
      | some category =>
        if catType category = some tt then some (w, category)
        else findKeywordMatch tt ws
      | none => findKeywordMatch tt ws := rfl

theorem findKeywordMatch_type {tt : String} :
    ∀ {ws : List String} {w c : String},
      findKeywordMatch tt ws = some (w, c) → catType c = some tt := by
  intro ws
  induction ws with
  | nil =>
    intro w c h
    rw [findKeywordMatch_nil] at h
    cases h
  | cons a as ih =>
    intro w c h
    rw [findKeywordMatch_cons] at h
    cases hk : kwLookup a with
    | none => rw [hk] at h; exact ih h
    | some cat =>
      rw [hk] at h
      simp only at h
      by_cases hc : catType cat = some tt
      · rw [if_pos hc] at h
        cases h
        exact hc
      · rw [if_neg hc] at h
        exact ih h

theorem findKeywordMatch_isSome {tt w c : String} {ws : List String}
    (hw : w ∈ ws) (hk : kwLookup w = some c) (hc : catType c = some tt) :
    (findKeywordMatch tt ws).isSome := by
  induction ws with
  | nil => cases hw
  | cons a as ih =>
    rw [findKeywordMatch_cons]
    rcases List.mem_cons.mp hw with rfl | ha
    · rw [hk]
      dsimp only
      rw [if_pos hc]
      rfl
    · cases hka : kwLookup a with
      | none => exact ih ha
      | some cat =>
        dsimp only
        by_cases hca : catType cat = some tt
        · rw [if_pos hca]; rfl
        · rw [if_neg hca]; exact ih ha

theorem specKeywordHit_nil (tt : String) : specKeywordHit tt [] = none := rfl

theorem specKeywordHit_cons (tt w : String) (ws : List String) :
    specKeywordHit tt (w :: ws) =
      match kwLookup w with
      | some c =>
        if catType c = some tt then some (w, c) else specKeywordHit tt ws
      | none => specKeywordHit tt ws := by
  unfold specKeywordHit
  rw [List.findSome?_cons]
  cases kwLookup w with
  | none => rfl
  | some c =>
    dsimp only
    by_cases hc : catType c = some tt
    · rw [if_pos hc, if_pos hc]
    · rw [if_neg hc, if_neg hc]

theorem specKeywordHit_eq (tt : String) (ws : List String) :
    specKeywordHit tt ws = findKeywordMatch tt ws := by
  induction ws with
  | nil => rfl
  | cons w ws ih =>
    rw [specKeywordHit_cons, findKeywordMatch_cons]
    cases kwLookup w with
    | none => exact ih
    | some c =>
      dsimp only
      by_cases hc : catType c = some tt
      · rw [if_pos hc, if_pos hc]
      · rw [if_neg hc, if_neg hc]; exact ih

theorem mem_insertDesc {p q : String × ℚ} {l : List (String × ℚ)} :
    p ∈ insertDesc q l ↔ p = q ∨ p ∈ l := by
  induction l with
  | nil => simp [insertDesc]
  | cons a as ih =>
    unfold insertDesc
    by_cases h : q.2 < a.2
    · rw [if_pos h]
      simp only [List.mem_cons, ih]
      tauto
    · rw [if_neg h]
      exact List.mem_cons

theorem mem_sortDesc {p : String × ℚ} {l : List (String × ℚ)} :
    p ∈ sortDesc l ↔ p ∈ l := by
  induction l with
  | nil => simp [sortDesc]
  | cons a as ih =>
    unfold sortDesc
    rw [mem_insertDesc, ih, List.mem_cons]

theorem pairwise_insertDesc {p : String × ℚ} {l : List (String × ℚ)}
    (h : l.Pairwise (fun a b => b.2 ≤ a.2)) :
    (insertDesc p l).Pairwise (fun a b => b.2 ≤ a.2) := by
  induction l with
  | nil => simp [insertDesc]
  | cons a as ih =>
    rcases List.pairwise_cons.mp h with ⟨ha, has⟩
    unfold insertDesc
    by_cases hpa : p.2 < a.2
    · rw [if_pos hpa]
      refine List.pairwise_cons.mpr ⟨?_, ih has⟩
      intro x hx
      rcases mem_insertDesc.mp hx with rfl | hxm
      · exact le_of_lt hpa
      · exact ha x hxm
    · rw [if_neg hpa]
      refine List.pairwise_cons.mpr ⟨?_, h⟩
      intro x hx
      rcases List.mem_cons.mp hx with rfl | hxm
      · exact le_of_not_lt hpa
      · exact le_trans (ha x hxm) (le_of_not_lt hpa)

theorem pairwise_sortDesc (l : List (String × ℚ)) :
    (sortDesc l).Pairwise (fun a b => b.2 ≤ a.2) := by
  induction l with
  | nil => simp [sortDesc]
  | cons a as ih => exact pairwise_insertDesc ih

theorem apply_rule_raw_hit (stem : String → Option String) (text tt w cat : String)
    (h1 : findKeywordMatch tt (tokenizeWS (lowerStr text)) = some (w, cat)) :
    apply_rule_based_classification stem text tt =
      (some cat, rat98,
        "Category \x27" ++ cat ++ "\x27 chosen based on keyword \x27" ++ w ++ "\x27") := by
  simp only [apply_rule_based_classification, h1]

theorem apply_rule_norm_hit (stem : String → Option String) (text tt w cat : String)
    (h1 : findKeywordMatch tt (tokenizeWS (lowerStr text)) = none)
    (h2 : findKeywordMatch tt (tokenizeWS (preprocess_text stem text)) = some (w, cat)) :
    apply_rule_based_classification stem text tt =
      (some cat, rat95,
        "Category \x27" ++ cat ++ "\x27 chosen based on processed keyword \x27" ++
          w ++ "\x27 (from \x27" ++ text ++ "\x27)") := by
  simp only [apply_rule_based_classification, h1, h2]

theorem apply_rule_some_characterization (stem : String → Option String)
    (text tt c : String) (conf : ℚ) (expl : String)
    (h : apply_rule_based_classification stem text tt = (some c, conf, expl)) :
    catType c = some tt ∧ (conf = rat98 ∨ conf = rat95 ∨ conf = rat90) := by
  cases h1 : findKeywordMatch tt (tokenizeWS (lowerStr text)) with
  | some wc =>
    obtain ⟨w, cat⟩ := wc
    rw [apply_rule_raw_hit stem text tt w cat h1] at h
    simp only [Prod.mk.injEq] at h
    obtain ⟨hcat, hconf, _⟩ := h
    cases hcat
    exact ⟨findKeywordMatch_type h1, Or.inl hconf.symm⟩
  | none =>
    cases h2 : findKeywordMatch tt (tokenizeWS (preprocess_text stem text)) with
    | some wc =>
      obtain ⟨w, cat⟩ := wc
      rw [apply_rule_norm_hit stem text tt w cat h1 h2] at h
      simp only [Prod.mk.injEq] at h
      obtain ⟨hcat, hconf, _⟩ := h
      cases hcat
      exact ⟨findKeywordMatch_type h2, Or.inr (Or.inl hconf.symm)⟩
    | none =>
      simp only [apply_rule_based_classification, h1, h2] at h
      by_cases ht : tt = "expense"
      case neg =>
        rw [if_neg ht] at h
        simp only [Prod.mk.injEq] at h
        exact absurd h.1 (by simp)
      case pos =>
        subst ht
        rw [if_pos rfl] at h
        by_cases m1 : (shopping_intent_keywords.filter
            (fun w => (tokenizeWS (preprocess_text stem text)).contains w)).isEmpty
        case neg =>
          simp only [m1, Bool.not_false, if_true, Prod.mk.injEq] at h
          obtain ⟨hcat, hconf, _⟩ := h
          cases hcat
          exact ⟨by decide, Or.inr (Or.inr hconf.symm)⟩
        case pos =>
          simp only [m1, Bool.not_true, Bool.false_eq_true, if_false] at h
          by_cases m2 : (food_intent_keywords.filter
              (fun w => (tokenizeWS (preprocess_text stem text)).contains w)).isEmpty
          case neg =>
            simp only [m2, Bool.not_false, if_true, Prod.mk.injEq] at h
            obtain ⟨hcat, hconf, _⟩ := h
            cases hcat
            exact ⟨by decide, Or.inr (Or.inr hconf.symm)⟩
          case pos =>
            simp only [m2, Bool.not_true, Bool.false_eq_true, if_false] at h
            by_cases m3 : (transport_intent_keywords.filter
                (fun w => (tokenizeWS (preprocess_text stem text)).contains w)).isEmpty
            case neg =>
              simp only [m3, Bool.not_false, if_true, Prod.mk.injEq] at h
              obtain ⟨hcat, hconf, _⟩ := h
              cases hcat
              exact ⟨by decide, Or.inr (Or.inr hconf.symm)⟩
            case pos =>
              simp only [m3, Bool.not_true, Bool.false_eq_true, if_false] at h
              by_cases m4 : (travel_intent_keywords.filter
                  (fun w => (tokenizeWS (preprocess_text stem text)).contains w)).isEmpty
              case neg =>
                simp only [m4, Bool.not_false, if_true, Prod.mk.injEq] at h
                obtain ⟨hcat, hconf, _⟩ := h
                cases hcat
                exact ⟨by decide, Or.inr (Or.inr hconf.symm)⟩
              case pos =>
                simp only [m4, Bool.not_true, Bool.false_eq_true, if_false,
                  Prod.mk.injEq] at h
                exact absurd h.1 (by simp)

theorem core_rule_branch (stem : String → Option String) (modelFn : String → List ℚ)
    (id2label : ℕ → String) (text tt c : String) (conf : ℚ) (expl : String)
    (hty : tt = "income" ∨ tt = "expense")
    (h : apply_rule_based_classification stem text tt = (some c, conf, expl))
    (h90 : rat90 ≤ conf) :
    classify_transaction_core stem modelFn id2label text tt =
      .ok ("Transaction classified using rule-based matching",
        { category := c, confidence := conf,
          processed_text := preprocess_text stem text,
          explanation := expl, suggestions := [] }, .rule) := by
  simp only [classify_transaction_core, h]
  rw [if_pos hty, if_pos ⟨rfl, h90⟩]
  rfl

/-- C9: whenever the Rule Classifier returns a category, that category's
declared type equals the requested transaction type, in all three steps. -/
theorem c9_rule_verdict_type_matches (stem : String → Option String)
    (text tt c : String)
    (h : (apply_rule_based_classification stem text tt).1 = some c) :
    catType c = some tt := by
  rcases hA : apply_rule_based_classification stem text tt with ⟨rc, conf, expl⟩
  rw [hA] at h
  dsimp only at h
  subst h
  exact (apply_rule_some_characterization stem text tt c conf expl hA).1

/-- C9 witness: on text gaji with type income the rule fires with Salary,
whose declared type is income. -/
theorem c9_witness : catType "Salary" = some "income" :=
  c9_rule_verdict_type_matches (fun t => some t) "gaji" "income" "Salary" (by decide)

/-- C7: every non-None rule verdict carries one of the fixed confidences
0.98, 0.95, 0.90, hence at least 0.90, so the Decision Combiner's rule
short-circuit always consumes it and the rule-merging model-path branches
are unreachable. -/
theorem c7_rule_verdict_always_short_circuits (stem : String → Option String)
    (modelFn : String → List ℚ) (id2label : ℕ → String)
    (text tt c : String) (conf : ℚ) (expl : String) (now : ℕ)
    (h : apply_rule_based_classification stem text tt = (some c, conf, expl)) :
    (conf = rat98 ∨ conf = rat95 ∨ conf = rat90) ∧ rat90 ≤ conf ∧
      ((tt = "income" ∨ tt = "expense") →
        classify_transaction stem modelFn id2label text tt now =
          .ok { message := "Transaction classified using rule-based matching",
                data := { category := c, confidence := conf,
                          processed_text := preprocess_text stem text,
                          explanation := expl, suggestions := [] },
                source := .rule, timestamp := now }) := by
  obtain ⟨-, hconf⟩ := apply_rule_some_characterization stem text tt c conf expl h
  have h90 : rat90 ≤ conf := by
    rcases hconf with rfl | rfl | rfl
    · decide
    · decide
    · exact le_refl _
  refine ⟨hconf, h90, fun hty => ?_⟩
  unfold classify_transaction
  rw [core_rule_branch stem modelFn id2label text tt c conf expl hty h h90]

/-- C4: the Rule Classifier is exactly the spec's three-step, strictly
ordered, first-match-wins algorithm: raw-token lookup at 0.98, then
normalized-token lookup at 0.95, then for expense the four intent sets in
the fixed order shopping, food, transport, travel at 0.90, else None with
confidence 0.0 and empty explanation. -/
theorem c4_rule_classifier_matches_spec (stem : String → Option String)
    (text tt : String) :
    apply_rule_based_classification stem text tt = classify_by_rule_spec stem text tt := by
  simp only [classify_by_rule_spec, specKeywordHit_eq, apply_rule_based_classification]
  cases findKeywordMatch tt (tokenizeWS (lowerStr text)) with
  | some wc => obtain ⟨w, c⟩ := wc; rfl
  | none =>
    cases findKeywordMatch tt (tokenizeWS (preprocess_text stem text)) with
    | some wc => obtain ⟨w, c⟩ := wc; rfl
    | none =>
      by_cases ht : tt = "expense"
      case neg => rw [if_neg ht, if_neg ht]
      case pos =>
        subst ht
        rw [if_pos rfl, if_pos rfl]
        simp only [intentTable, List.findSome?_cons]
        cases m1 : (shopping_intent_keywords.filter
            (fun w => (tokenizeWS (preprocess_text stem text)).contains w)).isEmpty with
        | false =>
          rw [Bool.not_false, if_pos rfl, if_neg (fun hh => Bool.noConfusion hh)]
          dsimp only
          simp only [Prod.mk.injEq]
          refine ⟨trivial, trivial, ?_⟩
          congr 1
        | true =>
          rw [Bool.not_true, if_neg (fun hh => Bool.noConfusion hh), if_pos rfl]
          dsimp only
          cases m2 : (food_intent_keywords.filter
              (fun w => (tokenizeWS (preprocess_text stem text)).contains w)).isEmpty with
          | false =>
            rw [Bool.not_false, if_pos rfl, if_neg (fun hh => Bool.noConfusion hh)]
            dsimp only
            simp only [Prod.mk.injEq]
            refine ⟨trivial, trivial, ?_⟩
            congr 1
          | true =>
            rw [Bool.not_true, if_neg (fun hh => Bool.noConfusion hh), if_pos rfl]
            dsimp only
            cases m3 : (transport_intent_keywords.filter
                (fun w => (tokenizeWS (preprocess_text stem text)).contains w)).isEmpty with
            | false =>
              rw [Bool.not_false, if_pos rfl, if_neg (fun hh => Bool.noConfusion hh)]
              dsimp only
              simp only [Prod.mk.injEq]
              refine ⟨trivial, trivial, ?_⟩
              congr 1
            | true =>
              rw [Bool.not_true, if_neg (fun hh => Bool.noConfusion hh), if_pos rfl]
              dsimp only
              cases m4 : (travel_intent_keywords.filter
                  (fun w => (tokenizeWS (preprocess_text stem text)).contains w)).isEmpty with
              | false =>
                rw [Bool.not_false, if_pos rfl, if_neg (fun hh => Bool.noConfusion hh)]
                dsimp only
                simp only [Prod.mk.injEq]
                refine ⟨trivial, trivial, ?_⟩
                congr 1
              | true =>
                rw [Bool.not_true, if_neg (fun hh => Bool.noConfusion hh), if_pos rfl]
                dsimp only
                rw [List.findSome?_nil]

/-- C7 witness: text gaji with type income fires the raw keyword rule at
confidence 0.98 and the combiner short-circuits with that verdict. -/
theorem c7_witness :
    (rat98 = rat98 ∨ rat98 = rat95 ∨ rat98 = rat90) ∧ rat90 ≤ rat98 ∧
      (("income" = "income" ∨ "income" = "expense") →
        classify_transaction (fun t => some t) (fun _ => []) (fun _ => "") "gaji" "income" 5 =
          .ok { message := "Transaction classified using rule-based matching",
                data := { category := "Salary", confidence := rat98,
                          processed_text := "gaji",
                          explanation := "Category \x27Salary\x27 chosen based on keyword \x27gaji\x27",
                          suggestions := [] },
                source := .rule, timestamp := 5 }) :=
  c7_rule_verdict_always_short_circuits (fun t => some t) (fun _ => []) (fun _ => "")
    "gaji" "income" "Salary" rat98
    "Category \x27Salary\x27 chosen based on keyword \x27gaji\x27" 5 (by decide)

/-- C8: the decide operation is deterministic and idempotent: with identical
request and identical loaded artifacts, two calls agree on category,
confidence, explanation, suggestions and source (only the response
timestamp differs). -/
theorem c8_decide_deterministic (stem : String → Option String)
    (modelFn : String → List ℚ) (id2label : ℕ → String)
    (text tt : String) (t1 t2 : ℕ) :
    resultView (classify_transaction stem modelFn id2label text tt t1) =
      resultView (classify_transaction stem modelFn id2label text tt t2) := by
  unfold classify_transaction
  cases classify_transaction_core stem modelFn id2label text tt <;> rfl

/-- C5: the type filter and ranker returns only categories whose declared
type equals the requested type, sorted descending by probability. -/
theorem c5_filter_and_rank (id2label : ℕ → String) (probabilities : List ℚ)
    (transaction_type : String) :
    (∀ p ∈ filter_categories_by_type id2label probabilities transaction_type,
        catType p.1 = some transaction_type) ∧
      (filter_categories_by_type id2label probabilities transaction_type).Pairwise
        (fun a b => b.2 ≤ a.2) := by
  constructor
  · intro p hp
    unfold filter_categories_by_type at hp
    rw [mem_sortDesc] at hp
    obtain ⟨ip, _, hf⟩ := List.mem_filterMap.mp hp
    dsimp only at hf
    by_cases hc : catType (id2label ip.1) = some transaction_type
    · rw [if_pos hc] at hf
      cases hf
      exact hc
    · rw [if_neg hc] at hf
      cases hf
  · exact pairwise_sortDesc _

/-- C5 witness: with labels Salary and Clothing, an income request keeps only
Salary (declared income; in particular Clothing never appears) and the
output is sorted descending. -/
theorem c5_witness :
    catType ("Salary", mkRat 7 10).1 = some "income" ∧
      (filter_categories_by_type
          (fun n => if n = 0 then "Clothing" else "Salary")
          [mkRat 9 10, mkRat 7 10] "income").Pairwise (fun a b => b.2 ≤ a.2) :=
  ⟨(c5_filter_and_rank (fun n => if n = 0 then "Clothing" else "Salary")
      [mkRat 9 10, mkRat 7 10] "income").1 ("Salary", mkRat 7 10) (by decide),
   (c5_filter_and_rank (fun n => if n = 0 then "Clothing" else "Salary")
      [mkRat 9 10, mkRat 7 10] "income").2⟩

/-- C2: every category name used as a value of the keyword rule table or as a
model label resolves in CATEGORY_TYPES to exactly one type, and that type is
income or expense. (The literal entry "Other": "income" is overridden by the
later "Other": "expense", so "Other" resolves to expense.) -/
theorem c2_used_categories_have_unique_type :
    ∀ cat ∈ usedCategoryNames,
      ∃! t : String, catType cat = some t ∧ (t = "income" ∨ t = "expense") := by
  have hall : usedCategoryNames.all
      (fun c => (catType c).any (fun t => t == "income" || t == "expense")) = true := by
    decide
  intro cat hcat
  have h := List.all_eq_true.mp hall cat hcat
  cases hct : catType cat with
  | none =>
    rw [hct] at h
    exact absurd h (by simp [Option.any])
  | some t =>
    rw [hct] at h
    have ht : t = "income" ∨ t = "expense" := by
      simpa [Option.any, beq_iff_eq] using h
    refine ⟨t, ⟨rfl, ht⟩, ?_⟩
    intro y hy
    exact (Option.some.inj hy.1).symm

/-- C2 witness: the keyword-table value Food & Dining resolves uniquely to
the expense type. -/
theorem c2_witness :
    ∃! t : String, catType "Food & Dining" = some t ∧
      (t = "income" ∨ t = "expense") :=
  c2_used_categories_have_unique_type "Food & Dining" (by decide)

theorem getD_map_of_lt {α β : Type} (f : α → β) :
    ∀ (l : List α) (i : ℕ), i < l.length → ∀ (d : β) (d2 : α),
      (l.map f).getD i d = f (l.getD i d2) := by
  intro l
  induction l with
  | nil =>
    intro i h
    exact absurd h (Nat.not_lt_zero i)
  | cons a as ih =>
    intro i h d d2
    cases i with
    | zero => rfl
    | succ n =>
      simp only [List.map_cons, List.getD_cons_succ]
      exact ih n (Nat.lt_of_succ_lt_succ h) d d2

/-- C10: if the external stemmer raises on a token (and the token is not a
known financial term, so the stemmer is actually consulted), the Normalizer
keeps the original token at that position; normalization of the whole text
still succeeds, producing one normalized token per clean token, joined by
single spaces. -/
theorem c10_stemmer_failure_falls_back (stem : String → Option String)
    (text : String) (i : ℕ)
    (h : i < (cleanTokens text).length)
    (hfin : finLookup ((cleanTokens text).getD i "") = none)
    (hstem : stem ((cleanTokens text).getD i "") = none) :
    ((cleanTokens text).map (normalizeToken stem)).getD i "" =
        (cleanTokens text).getD i "" ∧
      ((cleanTokens text).map (normalizeToken stem)).length =
        (cleanTokens text).length ∧
      preprocess_text stem text =
        String.intercalate " " ((cleanTokens text).map (normalizeToken stem)) := by
  refine ⟨?_, List.length_map _ _, rfl⟩
  rw [getD_map_of_lt (normalizeToken stem) (cleanTokens text) i h "" ""]
  unfold normalizeToken
  rw [hfin, hstem]

/-- C10 witness: an always-failing stemmer leaves the first token of
"abc def" unchanged. -/
theorem c10_witness :
    0 < (cleanTokens "abc def").length ∧
      ((cleanTokens "abc def").map (normalizeToken (fun _ => none))).getD 0 "" =
        (cleanTokens "abc def").getD 0 "" :=
  ⟨by decide,
   (c10_stemmer_failure_falls_back (fun _ => none) "abc def" 0 (by decide)
      (by decide) rfl).1⟩

/-- C6: when the Rule Classifier returns no category and the type-filtered
model ranking is empty, the final result is the hardcoded default Other at
confidence 0.1 with source default. -/
theorem c6_default_on_empty_ranking (stem : String → Option String)
    (modelFn : String → List ℚ) (id2label : ℕ → String)
    (text tt : String) (now : ℕ)
    (hty : tt = "income" ∨ tt = "expense")
    (hrule : (apply_rule_based_classification stem text tt).1 = none)
    (hfil : filter_categories_by_type id2label
        (modelFn (preprocess_text stem text ++ " [type:" ++ tt ++ "]")) tt = []) :
    classify_transaction stem modelFn id2label text tt now =
      .ok { message := "Using default category as no ML results matched type",
            data := { category := "Other", confidence := rat01,
                      processed_text := preprocess_text stem text,
                      explanation := "Default category \x27Other\x27 chosen because no ML predictions matched transaction type: " ++ tt,
                      suggestions := [] },
            source := .defaultSrc, timestamp := now } := by
  rcases hA : apply_rule_based_classification stem text tt with ⟨rc, conf, expl⟩
  rw [hA] at hrule
  dsimp only at hrule
  subst hrule
  unfold classify_transaction
  simp only [classify_transaction_core, hA]
  rw [if_pos hty, if_neg (by simp), hfil]
  dsimp only
  rcases hty with rfl | rfl
  · rfl
  · rfl

/-- C6 witness: an unintelligible income text with an empty probability
vector yields the default Other at confidence 0.1, source default. -/
theorem c6_witness :
    classify_transaction (fun t => some t) (fun _ => []) (fun _ => "") "zzz" "income" 7 =
      .ok { message := "Using default category as no ML results matched type",
            data := { category := "Other", confidence := rat01,
                      processed_text := "zzz",
                      explanation := "Default category \x27Other\x27 chosen because no ML predictions matched transaction type: " ++ "income",
                      suggestions := [] },
            source := .defaultSrc, timestamp := 7 } :=
  c6_default_on_empty_ranking (fun t => some t) (fun _ => []) (fun _ => "")
    "zzz" "income" 7 (Or.inl rfl) (by decide) (by decide)

/-- C1 (amended): if the raw lowercased text contains a token that is a key
of the keyword table and whose mapped category's declared type equals the
requested type, the Rule Classifier returns a category at confidence at
least 0.90 and the Decision Combiner terminates immediately with that rule
verdict, source rule and empty suggestions; the spec's example text
"Payment for groceries" with type expense yields category "Debt Payment"
(its first token "payment" matches first), not "Food & Dining". -/
theorem c1_keyword_hit_short_circuits :
    (∀ (stem : String → Option String) (modelFn : String → List ℚ)
        (id2label : ℕ → String) (text tt : String) (now : ℕ) (w c : String),
      (tt = "income" ∨ tt = "expense") →
      w ∈ tokenizeWS (lowerStr text) →
      kwLookup w = some c →
      catType c = some tt →
      (apply_rule_based_classification stem text tt).1.isSome ∧
        rat90 ≤ (apply_rule_based_classification stem text tt).2.1 ∧
        classify_transaction stem modelFn id2label text tt now =
          .ok { message := "Transaction classified using rule-based matching",
                data := { category := (apply_rule_based_classification stem text tt).1.getD "",
                          confidence := (apply_rule_based_classification stem text tt).2.1,
                          processed_text := preprocess_text stem text,
                          explanation := (apply_rule_based_classification stem text tt).2.2,
                          suggestions := [] },
                source := .rule, timestamp := now }) ∧
      resultView (classify_transaction (fun t => some t) (fun _ => []) (fun _ => "")
          "Payment for groceries" "expense" 0) =
        some ("Debt Payment", rat98,
          "Category \x27Debt Payment\x27 chosen based on keyword \x27payment\x27",
          [], .rule) := by
  constructor
  · intro stem modelFn id2label text tt now w c hty hw hk hc
    have hsome := findKeywordMatch_isSome hw hk hc
    rcases Option.isSome_iff_exists.mp hsome with ⟨wc, h1⟩
    obtain ⟨w2, c2⟩ := wc
    have hA := apply_rule_raw_hit stem text tt w2 c2 h1
    rw [hA]
    refine ⟨rfl, (by decide : rat90 ≤ rat98), ?_⟩
    unfold classify_transaction
    rw [core_rule_branch stem modelFn id2label text tt c2 rat98 _ hty hA (by decide)]
    rfl
  · rfl

/-- C1 counterexample: for the claim's example "Payment for groceries" with
type expense the final category is Debt Payment, not Food & Dining. -/
theorem c1_counterexample_payment_for_groceries :
    (resultView (classify_transaction (fun t => some t) (fun _ => []) (fun _ => "")
        "Payment for groceries" "expense" 0)).map (fun v => v.1) =
      some "Debt Payment" ∧ ("Debt Payment" : String) ≠ "Food & Dining" :=
  ⟨by rfl, by decide⟩

/-- C1 witness: on "makan siang" with type expense the token makan maps to
Food & Dining, an expense category, and the combiner short-circuits. -/
theorem c1_witness :
    ("expense" = "income" ∨ "expense" = "expense") ∧
      ("makan" ∈ tokenizeWS (lowerStr "makan siang") ∧
        kwLookup "makan" = some "Food & Dining" ∧
        catType "Food & Dining" = some "expense") ∧
      ((apply_rule_based_classification (fun t => some t) "makan siang" "expense").1.isSome ∧
        rat90 ≤ (apply_rule_based_classification (fun t => some t) "makan siang" "expense").2.1 ∧
        classify_transaction (fun t => some t) (fun _ => []) (fun _ => "")
            "makan siang" "expense" 3 =
          .ok { message := "Transaction classified using rule-based matching",
                data := { category := (apply_rule_based_classification
                            (fun t => some t) "makan siang" "expense").1.getD "",
                          confidence := (apply_rule_based_classification
                            (fun t => some t) "makan siang" "expense").2.1,
                          processed_text := preprocess_text (fun t => some t) "makan siang",
                          explanation := (apply_rule_based_classification
                            (fun t => some t) "makan siang" "expense").2.2,
                          suggestions := [] },
                source := .rule, timestamp := 3 }) :=
  ⟨Or.inr rfl, ⟨by decide, by decide, by decide⟩,
    c1_keyword_hit_short_circuits.1 (fun t => some t) (fun _ => []) (fun _ => "")
      "makan siang" "expense" 3 "makan" "Food & Dining" (Or.inr rfl)
      (by decide) (by decide) (by decide)⟩

theorem str_data_append (a b : String) : (a ++ b).data = a.data ++ b.data := rfl

theorem leadsChars_append_self : ∀ (n b : List Char), leadsChars n (n ++ b) = true := by
  intro n
  induction n with
  | nil => intro b; rfl
  | cons c cs ih =>
    intro b
    show (decide (c = c) && leadsChars cs (cs ++ b)) = true
    rw [ih]
    simp

theorem hasSubChars_self (n b : List Char) : hasSubChars n (n ++ b) = true := by
  cases n with
  | nil => cases b <;> rfl
  | cons c cs =>
    show (leadsChars (c :: cs) ((c :: cs) ++ b) || hasSubChars (c :: cs) (cs ++ b)) = true
    rw [leadsChars_append_self]
    rfl

theorem hasSubChars_append_left (a n t : List Char) (h : hasSubChars n t = true) :
    hasSubChars n (a ++ t) = true := by
  induction a with
  | nil => exact h
  | cons c cs ih =>
    show (leadsChars n (c :: (cs ++ t)) || hasSubChars n (cs ++ t)) = true
    rw [ih]
    simp

theorem strContains_self_pre (sub s2 : String) : strContains (sub ++ s2) sub = true := by
  unfold strContains
  rw [str_data_append]
  exact hasSubChars_self _ _

theorem strContains_prepend (s t sub : String) (h : strContains t sub = true) :
    strContains (s ++ t) sub = true := by
  unfold strContains at h ⊢
  rw [str_data_append]
  exact hasSubChars_append_left _ _ _ h

theorem default_income_other : (dictGet DEFAULT_CATEGORIES "income").getD "" = "Other" := by
  decide

theorem default_expense_other : (dictGet DEFAULT_CATEGORIES "expense").getD "" = "Other" := by
  decide

/-- C3: the confidence gate is inclusive at 0.4: with no rule verdict and a
nonempty ranking, a top candidate at or above 0.4 is emitted as the final
result with source model; strictly below 0.4 the type's default Other is
emitted instead, the response reports the original sub-threshold candidate
confidence, the explanation names both the default and the rejected
candidate, and the suggestions are the top 3 ranked model categories. -/
theorem c3_confidence_gate (stem : String → Option String)
    (modelFn : String → List ℚ) (id2label : ℕ → String)
    (text tt : String) (now : ℕ) (best : String × ℚ) (rest : List (String × ℚ))
    (hty : tt = "income" ∨ tt = "expense")
    (hrule : (apply_rule_based_classification stem text tt).1 = none)
    (hfil : filter_categories_by_type id2label
        (modelFn (preprocess_text stem text ++ " [type:" ++ tt ++ "]")) tt = best :: rest) :
    (CONFIDENCE_THRESHOLD ≤ best.2 →
      classify_transaction stem modelFn id2label text tt now =
        .ok { message := "Transaction successfully classified",
              data := { category := best.1, confidence := best.2,
                        processed_text := preprocess_text stem text,
                        explanation := generate_explanation best.1 (preprocess_text stem text) tt,
                        suggestions := rest.take 3 },
              source := .model, timestamp := now }) ∧
    (best.2 < CONFIDENCE_THRESHOLD →
      ∃ expl : String,
        classify_transaction stem modelFn id2label text tt now =
          .ok { message := "Low confidence prediction, using default category",
                data := { category := "Other", confidence := best.2,
                          processed_text := preprocess_text stem text,
                          explanation := expl,
                          suggestions := (best :: rest).take 3 },
                source := .defaultSrc, timestamp := now } ∧
        strContains expl "Other" = true ∧ strContains expl best.1 = true) := by
  rcases hA : apply_rule_based_classification stem text tt with ⟨rc, conf, expl0⟩
  rw [hA] at hrule
  dsimp only at hrule
  subst hrule
  constructor
  · intro hge
    unfold classify_transaction
    simp only [classify_transaction_core, hA]
    rw [if_pos hty, if_neg (by simp), hfil]
    dsimp only
    rw [if_neg (not_lt.mpr hge)]
    simp only [List.take_take, Nat.min_self]
  · intro hlt
    rcases hty with rfl | rfl <;>
    · unfold classify_transaction
      simp only [classify_transaction_core, hA]
      rw [if_pos (by simp), if_neg (by simp), hfil]
      dsimp only
      rw [if_pos hlt]
      simp only [default_income_other, default_expense_other, List.take_take, Nat.min_self]
      refine ⟨_, rfl, ?_, ?_⟩
      · simp only [String.append_assoc]
        exact strContains_prepend _ _ _ (strContains_self_pre _ _)
      · simp only [String.append_assoc]
        exact strContains_prepend _ _ _ (strContains_prepend _ _ _ (strContains_prepend _ _ _
          (strContains_prepend _ _ _ (strContains_prepend _ _ _ (strContains_self_pre _ _)))))

/-- C3 witness: with no rule hit on "zzz qqq" and a model ranking headed by
Clothing at exactly 0.4, the threshold comparison is inclusive and the
model result Clothing at 0.4 is emitted; a second instantiation with the
head at 0.3 takes the default branch, reports 0.3, and its explanation
names both Other and the rejected candidate. -/
theorem c3_witness :
    (CONFIDENCE_THRESHOLD ≤ (("Clothing", mkRat 4 10) : String × ℚ).2 →
      classify_transaction (fun t => some t) (fun _ => [mkRat 4 10, mkRat 3 10])
          (fun n => if n = 0 then "Clothing" else "Food & Dining") "zzz qqq" "expense" 9 =
        .ok { message := "Transaction successfully classified",
              data := { category := ("Clothing", mkRat 4 10).1,
                        confidence := ("Clothing", mkRat 4 10).2,
                        processed_text := preprocess_text (fun t => some t) "zzz qqq",
                        explanation := generate_explanation ("Clothing", mkRat 4 10).1
                          (preprocess_text (fun t => some t) "zzz qqq") "expense",
                        suggestions := [("Food & Dining", mkRat 3 10)].take 3 },
              source := .model, timestamp := 9 }) ∧
    ((("Entertainment", mkRat 3 10) : String × ℚ).2 < CONFIDENCE_THRESHOLD →
      ∃ expl : String,
        classify_transaction (fun t => some t) (fun _ => [mkRat 3 10, mkRat 2 10])
            (fun n => if n = 0 then "Entertainment" else "Food & Dining") "zzz qqq" "expense" 9 =
          .ok { message := "Low confidence prediction, using default category",
                data := { category := "Other", confidence := ("Entertainment", mkRat 3 10).2,
                          processed_text := preprocess_text (fun t => some t) "zzz qqq",
                          explanation := expl,
                          suggestions := ((("Entertainment", mkRat 3 10) : String × ℚ) ::
                            [(("Food & Dining" : String), mkRat 2 10)]).take 3 },
                source := .defaultSrc, timestamp := 9 } ∧
          strContains expl "Other" = true ∧
          strContains expl ("Entertainment", mkRat 3 10).1 = true) :=
  ⟨(c3_confidence_gate (fun t => some t) (fun _ => [mkRat 4 10, mkRat 3 10])
      (fun n => if n = 0 then "Clothing" else "Food & Dining") "zzz qqq" "expense" 9
      ("Clothing", mkRat 4 10) [("Food & Dining", mkRat 3 10)]
      (Or.inr rfl) (by decide) (by decide)).1,
   (c3_confidence_gate (fun t => some t) (fun _ => [mkRat 3 10, mkRat 2 10])
      (fun n => if n = 0 then "Entertainment" else "Food & Dining") "zzz qqq" "expense" 9
      ("Entertainment", mkRat 3 10) [("Food & Dining", mkRat 2 10)]
      (Or.inr rfl) (by decide) (by decide)).2⟩
